import Mathlib

/-!
Shallow embedding of `megatron/data/realm_dataset.py` (REALMDataset, ICTDataset)
and verification of the specification claims about it.

Conventions of the embedding:
* token ids are `Nat`; token-id sequences are `List Nat`;
* the external indexed datasets (`block_dataset`, `title_dataset`, ...) are
  functions `Nat → List Nat`;
* Python `assert` is modelled by returning `Option`/`none` on violation;
* `random.Random` / `numpy.random.RandomState` instances are modelled by
  `PyRNG`: a deterministic raw word stream plus a cursor position.  Each
  `randint`/`random` call consumes one word and advances the cursor, so the
  model captures exactly the stateful, order-dependent nature of a shared
  RNG object, and the determinism of a freshly seeded one.
-/

/-- Model of a Python RNG object (`random.Random` or `numpy.random.RandomState`):
a deterministic stream of raw words together with a cursor.  Consuming a draw
advances the cursor, which is the mutable state of the Python object. -/
structure PyRNG where
  stream : Nat → Nat
  pos : Nat

namespace PyRNG

/-- Consume one raw word from the stream, advancing the cursor. -/
def nextRaw (g : PyRNG) : Nat × PyRNG :=
  (g.stream g.pos, { g with pos := g.pos + 1 })

/-- `rng.randint(a, b)`: uniform integer in `[a, b]` (both inclusive),
consuming one draw. -/
def randint (g : PyRNG) (a b : Nat) : Nat × PyRNG :=
  let (r, g1) := g.nextRaw
  (a + r % (b - a + 1), g1)

/-- `rng.random()`: a float in `[0, 1)`, modelled as a 53-bit draw divided
by `2^53` (this is how CPython produces it), consuming one draw. -/
def random (g : PyRNG) : ℚ × PyRNG :=
  let (r, g1) := g.nextRaw
  (mkRat (r % 2 ^ 53 : Nat) (2 ^ 53), g1)

end PyRNG

/-- Python list slicing `xs[:n]` for a possibly negative bound `n`
(`xs[:n]` with `n < 0` keeps all but the last `-n` elements). -/
def pyTake (xs : List Nat) (n : Int) : List Nat :=
  if 0 ≤ n then xs.take n.toNat else xs.take (xs.length - (-n).toNat)

/-- The sample dictionary returned by `ICTDataset.__getitem__`. -/
structure ICTSample where
  query_tokens : List Nat
  query_pad_mask : List Nat
  block_tokens : List Nat
  block_pad_mask : List Nat
  block_data : List Nat
deriving DecidableEq, Repr

/-- Configuration/state of an `ICTDataset` instance: the constructor
arguments and the external collaborators it captures (sample mapping,
block and title datasets, tokenizer special ids and id-to-token table).
The shared `self.rng = random.Random(seed)` object is *not* a field here:
its mutable state is passed explicitly through `getItem`. -/
structure ICTDataset where
  seed : Nat
  max_seq_length : Nat
  query_in_block_prob : ℚ
  use_titles : Bool
  block_dataset : Nat → List Nat
  title_dataset : Nat → List Nat
  samples_mapping : Nat → Nat × Nat × Nat × Nat
  cls_id : Nat
  sep_id : Nat
  mask_id : Nat
  pad_id : Nat
  id_to_token : Nat → String

namespace ICTDataset

/-- `ICTDataset.concat_and_pad_tokens`: concat with special tokens and pad
the sequence to `max_seq_length`; the `assert len(tokens) <= max_seq_length`
is modelled by returning `none` on violation. -/
def concat_and_pad_tokens (ds : ICTDataset) (tokens : List Nat)
    (title : Option (List Nat)) : Option (List Nat × List Nat) :=
  let toks : List Nat :=
    match title with
    | none => ds.cls_id :: tokens ++ [ds.sep_id]
    | some t => ds.cls_id :: t ++ [ds.sep_id] ++ tokens ++ [ds.sep_id]
  if toks.length ≤ ds.max_seq_length then
    let num_pad := ds.max_seq_length - toks.length
    some (toks ++ List.replicate num_pad ds.pad_id,
          List.replicate toks.length 1 ++ List.replicate num_pad 0)
  else none

/-- The block materialized for sample `idx`:
`[list(self.block_dataset[i]) for i in range(start_idx, end_idx)]`. -/
def blockOf (ds : ICTDataset) (start_idx end_idx : Nat) : List (List Nat) :=
  (List.range' start_idx (end_idx - start_idx)).map ds.block_dataset

/-- The title-dependent pad offset computed at the top of `__getitem__`:
`3 + len(title)` when `use_titles` else `2`. -/
def titlePadOffset (ds : ICTDataset) (doc_idx : Nat) : Nat :=
  if ds.use_titles then 3 + (ds.title_dataset doc_idx).length else 2

/-- The truncation of the query: `query[:self.max_seq_length - 2]`. -/
def queryTrunc (ds : ICTDataset) (query : List Nat) : List Nat :=
  pyTake query ((ds.max_seq_length : Int) - 2)

/-- The truncation of the flattened block:
`list(itertools.chain(*block))[:self.max_seq_length - title_pad_offset]`. -/
def blockTrunc (ds : ICTDataset) (doc_idx : Nat) (block : List (List Nat)) :
    List Nat :=
  pyTake block.flatten ((ds.max_seq_length : Int) - ds.titlePadOffset doc_idx)

/-- `ICTDataset.__getitem__`.  `g` is the current state of the shared
`self.rng`; the result pairs the sample with the post-call RNG state.
`assert len(block) > 1` is modelled by `none`, as is the assertion inside
`concat_and_pad_tokens`. -/
def getItem (ds : ICTDataset) (g : PyRNG) (idx : Nat) :
    Option (ICTSample × PyRNG) :=
  let (start_idx, end_idx, doc_idx, block_idx) := ds.samples_mapping idx
  let title : Option (List Nat) :=
    if ds.use_titles then some (ds.title_dataset doc_idx) else none
  let block := ds.blockOf start_idx end_idx
  if block.length > 1 then
    let (rand_sent_idx, g1) := g.randint 0 (block.length - 1)
    let (r, g2) := g1.random
    -- keep the query in the context with probability query_in_block_prob
    let query := (block.getD rand_sent_idx [])
    let block2 := if r < ds.query_in_block_prob then block
                  else block.eraseIdx rand_sent_idx
    let query2 := ds.queryTrunc query
    let block3 := ds.blockTrunc doc_idx block2
    match ds.concat_and_pad_tokens query2 none,
          ds.concat_and_pad_tokens block3 title with
    | some (query_tokens, query_pad_mask), some (block_tokens, block_pad_mask) =>
        some ({ query_tokens := query_tokens
                query_pad_mask := query_pad_mask
                block_tokens := block_tokens
                block_pad_mask := block_pad_mask
                block_data := [start_idx, end_idx, doc_idx, block_idx] }, g2)
    | _, _ => none
  else none

/-- `ICTDataset.get_block`: the IDs for an evidence block plus the title of
the corresponding document.  Note the source always fetches and frames with
the title here, independent of `use_titles`. -/
def get_block (ds : ICTDataset) (start_idx end_idx doc_idx : Nat) :
    Option (List Nat × List Nat) :=
  let block := ds.blockOf start_idx end_idx
  let title := ds.title_dataset doc_idx
  let block2 := pyTake block.flatten
    ((ds.max_seq_length : Int) - (3 + title.length))
  ds.concat_and_pad_tokens block2 (some title)

/-- `ICTDataset.get_null_block`: frame the empty block with the empty title. -/
def get_null_block (ds : ICTDataset) : Option (List Nat × List Nat) :=
  ds.concat_and_pad_tokens [] (some [])

end ICTDataset

/-- Modelled from the spec: `join_str_list` is imported from
`megatron.data.realm_dataset_utils`, which is not among the sources here.
Per §4.4 it joins surface (sub)tokens back into natural text, merging
subword continuation markers: a token starting with the continuation
marker is appended without a space, other tokens are joined with a
single space. -/
def join_str_list (tokens : List String) : String :=
  match tokens with
  | [] => ""
  | t :: rest =>
      rest.foldl (fun acc u =>
        if u.startsWith "##" then acc ++ u.drop 2 else acc ++ " " ++ u) t

/-- The fixed set of search-syntax-reserved characters escaped by
strict-mode decoding (line 166 of the source). -/
def escape_chars : List Char :=
  ['+', '-', '&', '!', '(', ')', '\x7b', '\x7d', '[', ']', '^', '\x22',
   '~', '*', '?', ':', '/']

/-- The escaping loop of `decode_tokens` (lines 167-176): iterate an index
over the (mutating) character list; at a reserved character insert a
backslash right before it and skip the next iteration, which revisits the
same character shifted one place to the right. -/
def escapeLoop (l : List Char) (i : Nat) (skip : Bool) : List Char :=
  if h : i < l.length then
    if skip then escapeLoop l (i + 1) false
    else if l.get ⟨i, h⟩ ∈ escape_chars then
      escapeLoop (l.insertIdx i '\\') (i + 1) true
    else escapeLoop l (i + 1) false
  else l
termination_by 2 * l.length + 1 - (2 * i + (if skip then 1 else 0))
decreasing_by
  all_goals
    have hlen : (l.insertIdx i '\\').length = l.length + 1 :=
      List.length_insertIdx i l (by omega)
    simp_all
    omega

/-- The full strict-mode escaping stage (lines 168-177): strip all
pre-existing backslashes, then run the insertion loop from the start. -/
def escapeStrict (s : String) : String :=
  String.mk (escapeLoop (s.data.filter (fun c => decide (c ≠ '\\'))) 0 false)

/-- `ICTDataset.decode_tokens`: convert ids to surface tokens, drop
`[PAD]`/`[CLS]` (and `[SEP]` in hardcore mode), join, and in hardcore mode
escape reserved characters and pad the result to length at least 3 with a
fixed placeholder. -/
def ICTDataset.decode_tokens (ds : ICTDataset) (token_ids : List Nat)
    (hardcore : Bool) : String :=
  let tokens := token_ids.map ds.id_to_token
  let exclude_list : List String :=
    if hardcore then ["[PAD]", "[CLS]", "[SEP]"] else ["[PAD]", "[CLS]"]
  let non_pads := tokens.filter (fun t => decide (t ∉ exclude_list))
  let joined_strs := join_str_list non_pads
  if hardcore then
    let escaped := escapeStrict joined_strs
    if escaped.length < 3 then escaped ++ "text here" else escaped
  else joined_strs

/-- Functional description of one escaping pass: a backslash is placed
immediately before every reserved character, other characters are copied. -/
def escapeAll (l : List Char) : List Char :=
  l.flatMap (fun c => if c ∈ escape_chars then ['\\', c] else [c])

/-- Scanner for the escaped-output property claimed of strict-mode
decoding: every backslash is immediately followed by a reserved character
(so there are never two consecutive backslashes, the backslash itself not
being reserved, and every reserved character is preceded by exactly one
backslash), and a character not reached by consuming an escape pair must
be non-reserved (so no reserved character appears unescaped). -/
def wellEscaped : List Char → Bool
  | [] => true
  | [c] => decide (c ∉ escape_chars)
  | c :: d :: rest =>
      if c = '\\' then decide (d ∈ escape_chars) && wellEscaped rest
      else decide (c ∉ escape_chars) && wellEscaped (d :: rest)

/-- The sample produced by `build_realm_training_sample` (token ids, pad
mask, labels) together with the `query_block_indices` attached by
`REALMDataset.__getitem__`. -/
structure REALMSample where
  tokens : List Nat
  pad_mask : List Nat
  labels : List Nat
  query_block_indices : List Nat
deriving DecidableEq, Repr

/-- Configuration/state of a `REALMDataset` instance.  The external
collaborators that `__getitem__` calls are injected as fields:
`numpy_RandomState` models the `numpy.random.RandomState(seed=...)`
constructor (a pure function from the seed to a fresh RNG state), and
`build_realm_training_sample` models the builder primitive.

`build_realm_training_sample` — Modelled from the spec: the function lives
in `megatron/data/realm_dataset_utils`, which is not part of the sources
here; per §4.1 it is a pure function of the block, the optional
ner/cased side streams and the supplied RNG (plus the fixed per-dataset
configuration), with randomness entirely driven by the supplied RNG
instance.  It is therefore embedded as an arbitrary function field of
that type. -/
structure REALMDataset where
  seed : Nat
  max_seq_length : Nat
  masked_lm_prob : ℚ
  block_dataset : Nat → List Nat
  title_dataset : Nat → List Nat
  samples_mapping : Nat → Nat × Nat × Nat × Nat
  ner_dataset : Option (Nat → List Nat)
  cased_block_dataset : Option (Nat → List Nat)
  cls_id : Nat
  sep_id : Nat
  mask_id : Nat
  pad_id : Nat
  numpy_RandomState : Nat → PyRNG
  build_realm_training_sample :
    List (List Nat) → Nat → Nat → Nat → Nat → Nat → ℚ →
    Option (List (List Nat)) → Option (List (List Nat)) → PyRNG →
    List Nat × List Nat × List Nat

namespace REALMDataset

/-- The block materialized for sample `idx`. -/
def blockOf (ds : REALMDataset) (start_idx end_idx : Nat) : List (List Nat) :=
  (List.range' start_idx (end_idx - start_idx)).map ds.block_dataset

/-- The per-sample RNG constructed on line 69 of the source:
`np_rng = np.random.RandomState(seed=(self.seed + idx))`. -/
def sampleRng (ds : REALMDataset) (idx : Nat) : PyRNG :=
  ds.numpy_RandomState (ds.seed + idx)

/-- `REALMDataset.__getitem__`.  `g` is the state of the shared `self.rng`
field (which the method never touches); it is returned unchanged.
`assert len(block) > 1` is modelled by `none`. -/
def getItem (ds : REALMDataset) (g : PyRNG) (idx : Nat) :
    Option (REALMSample × PyRNG) :=
  let (start_idx, end_idx, _doc_idx, block_idx) := ds.samples_mapping idx
  let block := ds.blockOf start_idx end_idx
  if block.length > 1 then
    let block_ner_mask := ds.ner_dataset.map
      (fun f => (List.range' start_idx (end_idx - start_idx)).map f)
    let cased_tokens := ds.cased_block_dataset.map
      (fun f => (List.range' start_idx (end_idx - start_idx)).map f)
    let np_rng := ds.sampleRng idx
    let t := ds.build_realm_training_sample block ds.max_seq_length
      ds.cls_id ds.sep_id ds.mask_id ds.pad_id ds.masked_lm_prob
      block_ner_mask cased_tokens np_rng
    some ({ tokens := t.1
            pad_mask := t.2.1
            labels := t.2.2
            query_block_indices := [block_idx] }, g)
  else none

end REALMDataset

/-! Concrete instances used by the witnesses and counterexamples below. -/

/-- An ICT instance with three one-token sentences per block, titles off. -/
def dsC1 : ICTDataset where
  seed := 0
  max_seq_length := 5
  query_in_block_prob := 0
  use_titles := false
  block_dataset := fun i => [i + 1]
  title_dataset := fun _ => []
  samples_mapping := fun _ => (0, 3, 0, 0)
  cls_id := 101
  sep_id := 102
  mask_id := 103
  pad_id := 0
  id_to_token := fun _ => "x"

/-- A fresh shared-RNG state for `dsC1`. -/
def gC1 : PyRNG := ⟨fun n => n, 0⟩

/-- The shared-RNG state of `dsC1` after first retrieving sample index 1. -/
def gC1' : PyRNG := (dsC1.getItem gC1 1).elim gC1 Prod.snd

/-- An ICT instance whose blocks consist of two identical sentences. -/
def dsC2x : ICTDataset where
  seed := 0
  max_seq_length := 4
  query_in_block_prob := 0
  use_titles := false
  block_dataset := fun _ => [1]
  title_dataset := fun _ => []
  samples_mapping := fun _ => (0, 2, 0, 0)
  cls_id := 101
  sep_id := 102
  mask_id := 103
  pad_id := 0
  id_to_token := fun _ => "x"

/-- A fresh shared-RNG state for `dsC2x`. -/
def gC2x : PyRNG := ⟨fun _ => 0, 0⟩

/-- An ICT instance whose first sentence contains the pad id as a real token. -/
def dsC5 : ICTDataset where
  seed := 0
  max_seq_length := 4
  query_in_block_prob := 0
  use_titles := false
  block_dataset := fun i => [2 * i]
  title_dataset := fun _ => []
  samples_mapping := fun _ => (0, 2, 0, 0)
  cls_id := 101
  sep_id := 102
  mask_id := 103
  pad_id := 0
  id_to_token := fun _ => "x"

/-- A fresh shared-RNG state for `dsC5`. -/
def gC5 : PyRNG := ⟨fun _ => 0, 0⟩

/-- An ICT instance with titles disabled but a nonempty title dataset. -/
def dsC7 : ICTDataset where
  seed := 0
  max_seq_length := 6
  query_in_block_prob := 0
  use_titles := false
  block_dataset := fun i => [i + 1]
  title_dataset := fun _ => [9]
  samples_mapping := fun _ => (0, 2, 0, 0)
  cls_id := 101
  sep_id := 102
  mask_id := 103
  pad_id := 0
  id_to_token := fun _ => "x"

/-- A fresh shared-RNG state for `dsC7`. -/
def gC7 : PyRNG := ⟨fun _ => 0, 0⟩

/-- A titles-enabled ICT instance mirroring the end-to-end scenario of §8. -/
def dsWit : ICTDataset where
  seed := 0
  max_seq_length := 10
  query_in_block_prob := 0
  use_titles := true
  block_dataset := fun i => [10 + i, 20 + i]
  title_dataset := fun _ => [5]
  samples_mapping := fun _ => (0, 2, 0, 7)
  cls_id := 101
  sep_id := 102
  mask_id := 103
  pad_id := 0
  id_to_token := fun _ => "x"

/-- A fresh shared-RNG state for `dsWit`. -/
def gW : PyRNG := ⟨fun n => n, 0⟩

/-- An ICT instance whose sample mapping yields a single-sentence block. -/
def dsWit6 : ICTDataset where
  seed := 0
  max_seq_length := 10
  query_in_block_prob := 0
  use_titles := true
  block_dataset := fun i => [10 + i]
  title_dataset := fun _ => [5]
  samples_mapping := fun _ => (0, 1, 0, 0)
  cls_id := 101
  sep_id := 102
  mask_id := 103
  pad_id := 0
  id_to_token := fun _ => "x"

/-- A REALM instance whose sample mapping yields a single-sentence block. -/
def dsWitR : REALMDataset where
  seed := 3
  max_seq_length := 10
  masked_lm_prob := 0
  block_dataset := fun i => [10 + i]
  title_dataset := fun _ => [5]
  samples_mapping := fun _ => (0, 1, 0, 0)
  ner_dataset := none
  cased_block_dataset := none
  cls_id := 101
  sep_id := 102
  mask_id := 103
  pad_id := 0
  numpy_RandomState := fun s => ⟨fun _ => s, 0⟩
  build_realm_training_sample := fun _ _ _ _ _ _ _ _ _ _ => ([], [], [])

/-! Helper lemmas. -/

theorem PyRNG.random_nonneg (g : PyRNG) : 0 ≤ (g.random).1 := by
  unfold PyRNG.random PyRNG.nextRaw
  simp only [Rat.mkRat_eq_div]
  positivity

theorem getD_replicate' {α : Type} (a d : α) (n i : Nat) :
    (List.replicate n a).getD i d = if i < n then a else d := by
  by_cases h : i < n
  · rw [List.getD_eq_getElem _ _ (by simpa using h), List.getElem_replicate, if_pos h]
  · rw [List.getD_eq_default _ _ (by simpa using h), if_neg h]

theorem padmask_iff (msl pad : Nat) (toks : List Nat)
    (hmem : ∀ x ∈ toks, x ≠ pad) :
    ∀ i, i < msl →
      ((List.replicate toks.length 1 ++ List.replicate (msl - toks.length) 0).getD i 0 = 1 ↔
       (toks ++ List.replicate (msl - toks.length) pad).getD i pad ≠ pad) := by
  intro i hi
  by_cases hlt : i < toks.length
  · rw [List.getD_append _ _ _ _ (by simpa using hlt),
      List.getD_append _ _ _ _ hlt, getD_replicate', if_pos hlt,
      List.getD_eq_getElem _ _ hlt]
    simp only [true_iff]
    exact hmem _ (List.getElem_mem _)
  · rw [List.getD_append_right _ _ _ _ (by simpa using hlt),
      List.getD_append_right _ _ _ _ (by omega), getD_replicate', getD_replicate']
    simp only [List.length_replicate]
    rw [if_pos (by omega), if_pos (by omega)]
    simp

theorem insertIdx_length_append (a : List Char) (b : List Char) (x : Char) :
    List.insertIdx a.length x (a ++ b) = a ++ x :: b := by
  induction a with
  | nil => rfl
  | cons c a ih => simp [List.insertIdx_succ_cons, ih]

theorem escapeLoop_append (b : List Char) :
    ∀ a : List Char, escapeLoop (a ++ b) a.length false = a ++ escapeAll b := by
  induction b with
  | nil =>
      intro a
      rw [escapeLoop]
      simp [escapeAll]
  | cons c b ih =>
      intro a
      rw [escapeLoop]
      have hlt : a.length < (a ++ c :: b).length := by simp
      rw [dif_pos hlt, if_neg (by simp)]
      have hget : (a ++ c :: b).get ⟨a.length, hlt⟩ = c := by
        simp [List.get_eq_getElem, List.getElem_append_right (Nat.le_refl a.length)]
      rw [hget]
      by_cases hc : c ∈ escape_chars
      · rw [if_pos hc, insertIdx_length_append]
        have h2 : a.length + 1 < (a ++ '\\' :: c :: b).length := by simp
        rw [escapeLoop, dif_pos h2, if_pos rfl]
        have hsplit : a ++ '\\' :: c :: b = (a ++ ['\\', c]) ++ b := by simp
        have hlen : a.length + 1 + 1 = (a ++ ['\\', c]).length := by simp
        rw [hsplit, hlen, ih]
        simp [escapeAll, hc]
      · rw [if_neg hc]
        have hsplit : a ++ c :: b = (a ++ [c]) ++ b := by simp
        have hlen : a.length + 1 = (a ++ [c]).length := by simp
        rw [hsplit, hlen, ih]
        simp [escapeAll, hc]

theorem escapeLoop_eq_escapeAll (l : List Char) :
    escapeLoop l 0 false = escapeAll l := by
  simpa using escapeLoop_append l []

theorem wellEscaped_cons (c : Char) (l : List Char) (hc1 : c ≠ '\\')
    (hc2 : c ∉ escape_chars) : wellEscaped (c :: l) = wellEscaped l := by
  cases l with
  | nil => simp [wellEscaped, hc2]
  | cons d rest => simp [wellEscaped, hc1, hc2]

theorem wellEscaped_esc (c : Char) (l : List Char) (hc : c ∈ escape_chars) :
    wellEscaped ('\\' :: c :: l) = wellEscaped l := by
  simp [wellEscaped, hc]

theorem wellEscaped_clean (l : List Char)
    (h : ∀ c ∈ l, c ≠ '\\' ∧ c ∉ escape_chars) : wellEscaped l = true := by
  induction l with
  | nil => rfl
  | cons c rest ih =>
      obtain ⟨h1, h2⟩ := h c (List.mem_cons_self c rest)
      rw [wellEscaped_cons c rest h1 h2]
      exact ih (fun d hd => h d (List.mem_cons_of_mem c hd))

theorem wellEscaped_escapeAll_append (l tail : List Char)
    (hl : ∀ c ∈ l, c ≠ '\\')
    (ht : ∀ c ∈ tail, c ≠ '\\' ∧ c ∉ escape_chars) :
    wellEscaped (escapeAll l ++ tail) = true := by
  induction l with
  | nil => exact wellEscaped_clean tail ht
  | cons c rest ih =>
      have hc1 : c ≠ '\\' := hl c (List.mem_cons_self c rest)
      have ihrest := ih (fun d hd => hl d (List.mem_cons_of_mem c hd))
      by_cases hc : c ∈ escape_chars
      · rw [escapeAll, List.flatMap_cons, if_pos hc]
        simpa [wellEscaped_esc c _ hc, escapeAll] using ihrest
      · rw [escapeAll, List.flatMap_cons, if_neg hc]
        simpa [wellEscaped_cons c _ hc1 hc, escapeAll] using ihrest

theorem filter_escapeAll (l : List Char) (hl : ∀ c ∈ l, c ≠ '\\') :
    (escapeAll l).filter (fun c => decide (c ≠ '\\')) = l := by
  induction l with
  | nil => rfl
  | cons c rest ih =>
      have hc1 : c ≠ '\\' := hl c (List.mem_cons_self c rest)
      have ihrest := ih (fun d hd => hl d (List.mem_cons_of_mem c hd))
      by_cases hc : c ∈ escape_chars
      · rw [escapeAll, List.flatMap_cons, if_pos hc]
        simp only [List.filter_append, List.filter_cons]
        simp [hc1, escapeAll] at ihrest ⊢
        exact ihrest
      · rw [escapeAll, List.flatMap_cons, if_neg hc]
        simp only [List.filter_append, List.filter_cons]
        simp [hc1, escapeAll] at ihrest ⊢
        exact ihrest

theorem mem_filter_ne_backslash (s : List Char) :
    ∀ c ∈ s.filter (fun c => decide (c ≠ '\\')), c ≠ '\\' := by
  intro c hc
  simpa using List.of_mem_filter hc

theorem escapeStrict_data (s : String) :
    (escapeStrict s).data = escapeAll (s.data.filter (fun c => decide (c ≠ '\\'))) := by
  rw [escapeStrict]
  show escapeLoop _ 0 false = _
  exact escapeLoop_eq_escapeAll _

theorem escapeStrict_idem (s : String) :
    escapeStrict (escapeStrict s) = escapeStrict s := by
  conv_lhs => rw [escapeStrict]
  rw [escapeStrict_data, filter_escapeAll _ (mem_filter_ne_backslash s.data)]
  rw [escapeStrict]

theorem string_length_append (a b : String) :
    (a ++ b).length = a.length + b.length := by
  show (a.data ++ b.data).length = a.data.length + b.data.length
  exact List.length_append a.data b.data

theorem wellEscaped_escapeStrict_pad (j : String) :
    wellEscaped ((if (escapeStrict j).length < 3 then escapeStrict j ++ "text here"
                  else escapeStrict j).data) = true := by
  split
  · have hdata : (escapeStrict j ++ "text here").data
        = (escapeStrict j).data ++ "text here".data := rfl
    rw [hdata, escapeStrict_data]
    exact wellEscaped_escapeAll_append _ _ (mem_filter_ne_backslash _) (by decide)
  · rw [escapeStrict_data]
    simpa using wellEscaped_escapeAll_append
      (j.data.filter (fun c => decide (c ≠ '\\'))) []
      (mem_filter_ne_backslash _) (by simp)

/-! Claim theorems. -/

/-- C1 (amended): the per-call-RNG determinism holds for `REALMDataset` but
not for `ICTDataset`.  This theorem is the REALM half: `__getitem__` neither
reads the shared `self.rng` cursor (the returned sample is independent of
it) nor mutates it (the cursor comes back unchanged); the only randomness
is the freshly constructed `np.random.RandomState(seed + idx)`. -/
theorem C1_realm_rng_isolation (ds : REALMDataset) (g g' : PyRNG) (idx : Nat) :
    (ds.getItem g idx).map Prod.fst = (ds.getItem g' idx).map Prod.fst ∧
    (ds.getItem g idx).map Prod.snd = (ds.getItem g idx).map (fun _ => g) := by
  rcases h : ds.samples_mapping idx with ⟨s, e, d, b⟩
  simp only [REALMDataset.getItem, h]
  constructor <;> split <;> simp

/-- C1 (counterexample): `ICTDataset.__getitem__` reads and advances the
shared `self.rng` cursor, so retrieving sample 0 on a fresh dataset differs
from retrieving sample 0 after sample 1 was retrieved first — the claim's
history-independence fails for the inverse-cloze dataset. -/
theorem C1_ict_order_dependence :
    (dsC1.getItem gC1 0).map Prod.fst ≠ (dsC1.getItem gC1' 0).map Prod.fst ∧
    (dsC1.getItem gC1 0).map (fun p => p.2.pos) ≠ some gC1.pos := by
  decide

/-- C2 (amended): with `query_in_block_prob = 0` the keep-branch is never
taken (`rng.random() < 0` is impossible), so the picked sentence occurrence
is removed (`block.pop`) before flattening: the flattened block is exactly
the concatenation of the sentences before and after the picked index, and
the full block flattens to prefix ++ picked sentence ++ suffix.  (The
*tokens* of the picked sentence can still occur in the block when another
sentence has identical content — see the counterexample.) -/
theorem C2_query_removed_before_flatten (ds : ICTDataset) (g : PyRNG) (idx : Nat)
    (start_idx end_idx doc_idx block_idx i : Nat) (block : List (List Nat))
    (g2 : PyRNG)
    (hp : ds.query_in_block_prob = 0)
    (hmap : ds.samples_mapping idx = (start_idx, end_idx, doc_idx, block_idx))
    (hblock : block = ds.blockOf start_idx end_idx)
    (hlen : 1 < block.length)
    (hi : i = (g.randint 0 (block.length - 1)).1)
    (hg2 : g2 = ((g.randint 0 (block.length - 1)).2.random).2) :
    i < block.length ∧
    block.flatten =
      (block.take i).flatten ++ block.getD i [] ++ (block.drop (i + 1)).flatten ∧
    ds.getItem g idx =
      match ds.concat_and_pad_tokens (ds.queryTrunc (block.getD i [])) none,
            ds.concat_and_pad_tokens
              (ds.blockTrunc doc_idx (block.take i ++ block.drop (i + 1)))
              (if ds.use_titles then some (ds.title_dataset doc_idx) else none) with
      | some (qt, qm), some (bt, bm) =>
          some (⟨qt, qm, bt, bm, [start_idx, end_idx, doc_idx, block_idx]⟩, g2)
      | _, _ => none := by
  have hi' : i < block.length := by
    subst hi
    simp only [PyRNG.randint, PyRNG.nextRaw]
    have h1 : block.length - 1 + 1 = block.length := by omega
    simpa [h1] using Nat.mod_lt _ (by omega)
  refine ⟨hi', ?_, ?_⟩
  · rw [List.getD_eq_getElem _ _ hi']
    conv_lhs => rw [← List.take_append_drop i block, List.drop_eq_getElem_cons hi']
    rw [List.flatten_append, List.flatten_cons, List.append_assoc]
  · have hnot : ¬ ((g.randint 0 (block.length - 1)).2.random).1 <
        ds.query_in_block_prob := by
      rw [hp]
      exact not_lt.mpr (PyRNG.random_nonneg _)
    simp only [ICTDataset.getItem, hmap, ← hblock, if_pos hlen, hnot, if_neg,
      if_false, ← hi, ← hg2, List.eraseIdx_eq_take_drop_succ]

/-- C2 (witness): on `dsC2x` the picked index is in range. -/
theorem C2_witness :
    (gC2x.randint 0 ((dsC2x.blockOf 0 2).length - 1)).1 <
      (dsC2x.blockOf 0 2).length :=
  (C2_query_removed_before_flatten dsC2x gC2x 0 0 2 0 0
    ((gC2x.randint 0 ((dsC2x.blockOf 0 2).length - 1)).1)
    (dsC2x.blockOf 0 2)
    (((gC2x.randint 0 ((dsC2x.blockOf 0 2).length - 1)).2.random).2)
    (by decide) rfl rfl (by decide) rfl rfl).1

/-- C2 (counterexample): a block made of two identical sentences `[1]`,
`query_in_block_prob = 0`.  The picked occurrence is removed, yet the
query sentence's token `1` still appears in `block_tokens` (the other,
identical sentence remains), refuting "the sentence chosen as query never
appears in the flattened block tokens". -/
theorem C2_duplicate_sentence_counterexample :
    (dsC2x.getItem gC2x 0).map (fun p => (p.1.query_tokens, p.1.block_tokens)) =
      some ([101, 1, 102, 0], [101, 1, 102, 0]) ∧
    (1 : Nat) ∈ [101, 1, 102, 0] ∧ dsC2x.query_in_block_prob = 0 := by
  decide

/-- C3: before framing, the query is truncated to at most
`max_seq_length - 2` tokens and the flattened block to at most
`max_seq_length - title_pad_offset` tokens, where `title_pad_offset` is
`3 + len(title)` with titles enabled and `2` otherwise (stated in the
regime where the budgets are nonnegative). -/
theorem C3_truncation_budgets (ds : ICTDataset) (doc_idx : Nat)
    (query : List Nat) (block : List (List Nat))
    (h2 : 2 ≤ ds.max_seq_length)
    (hoff : ds.titlePadOffset doc_idx ≤ ds.max_seq_length) :
    (ds.queryTrunc query).length ≤ ds.max_seq_length - 2 ∧
    (ds.blockTrunc doc_idx block).length ≤
      ds.max_seq_length - ds.titlePadOffset doc_idx ∧
    ds.titlePadOffset doc_idx =
      (if ds.use_titles then 3 + (ds.title_dataset doc_idx).length else 2) := by
  refine ⟨?_, ?_, rfl⟩
  · rw [ICTDataset.queryTrunc, pyTake, if_pos (by omega)]
    simp only [List.length_take]
    omega
  · rw [ICTDataset.blockTrunc, pyTake, if_pos (by omega)]
    simp only [List.length_take]
    omega

/-- C3 (witness): concrete truncation bounds on `dsWit`. -/
theorem C3_witness :
    (dsWit.queryTrunc [1, 2, 3]).length ≤ dsWit.max_seq_length - 2 ∧
    (dsWit.blockTrunc 0 [[4], [5]]).length ≤
      dsWit.max_seq_length - dsWit.titlePadOffset 0 :=
  ⟨(C3_truncation_budgets dsWit 0 [1, 2, 3] [[4], [5]] (by decide) (by decide)).1,
   (C3_truncation_budgets dsWit 0 [1, 2, 3] [[4], [5]] (by decide) (by decide)).2.1⟩

/-- C4: whenever the framed length fits in `max_seq_length`,
`concat_and_pad_tokens` returns `[CLS] + tokens + [SEP]` (no title) or
`[CLS] + title + [SEP] + tokens + [SEP]` (with title), right-padded with
`pad_id` to exactly `max_seq_length`, with a pad mask of ones over the
framed part and zeros over the padding; the degenerate null block
(`get_null_block`) frames to `[CLS][SEP][SEP]` plus padding. -/
theorem C4_framing_layout (ds : ICTDataset) (tokens title : List Nat) :
    (tokens.length + 2 ≤ ds.max_seq_length →
      ds.concat_and_pad_tokens tokens none =
        some ((ds.cls_id :: tokens ++ [ds.sep_id]) ++
                List.replicate (ds.max_seq_length - (tokens.length + 2)) ds.pad_id,
              List.replicate (tokens.length + 2) 1 ++
                List.replicate (ds.max_seq_length - (tokens.length + 2)) 0)) ∧
    (title.length + tokens.length + 3 ≤ ds.max_seq_length →
      ds.concat_and_pad_tokens tokens (some title) =
        some ((ds.cls_id :: title ++ [ds.sep_id] ++ tokens ++ [ds.sep_id]) ++
                List.replicate
                  (ds.max_seq_length - (title.length + tokens.length + 3)) ds.pad_id,
              List.replicate (title.length + tokens.length + 3) 1 ++
                List.replicate
                  (ds.max_seq_length - (title.length + tokens.length + 3)) 0)) ∧
    (3 ≤ ds.max_seq_length →
      ds.get_null_block =
        some (ds.cls_id :: ds.sep_id :: ds.sep_id ::
                List.replicate (ds.max_seq_length - 3) ds.pad_id,
              1 :: 1 :: 1 :: List.replicate (ds.max_seq_length - 3) 0)) := by
  refine ⟨fun h => ?_, fun h => ?_, fun h => ?_⟩
  · have hlen : (ds.cls_id :: tokens ++ [ds.sep_id]).length = tokens.length + 2 := by
      simp
    simp [ICTDataset.concat_and_pad_tokens, hlen, h]
  · have e : title.length + (tokens.length + 1 + 1) + 1
        = title.length + tokens.length + 3 := by omega
    simp [ICTDataset.concat_and_pad_tokens, e, h]
  · simp [ICTDataset.get_null_block, ICTDataset.concat_and_pad_tokens, h,
      List.replicate_succ]

/-- C4 (witness): concrete framings on `dsWit`, including the null block. -/
theorem C4_witness :
    dsWit.concat_and_pad_tokens [7, 8] none =
      some ((dsWit.cls_id :: [7, 8] ++ [dsWit.sep_id]) ++
              List.replicate (dsWit.max_seq_length - ([7, 8].length + 2)) dsWit.pad_id,
            List.replicate ([7, 8].length + 2) 1 ++
              List.replicate (dsWit.max_seq_length - ([7, 8].length + 2)) 0) ∧
    dsWit.get_null_block =
      some (dsWit.cls_id :: dsWit.sep_id :: dsWit.sep_id ::
              List.replicate (dsWit.max_seq_length - 3) dsWit.pad_id,
            1 :: 1 :: 1 :: List.replicate (dsWit.max_seq_length - 3) 0) :=
  ⟨(C4_framing_layout dsWit [7, 8] [5]).1 (by decide),
   (C4_framing_layout dsWit [7, 8] [5]).2.2 (by decide)⟩

/-- C5 (amended): the pad-mask iff holds for every framed sequence whose
real content avoids `pad_id`: if `pad_id` differs from `cls_id`/`sep_id`
and occurs in neither the payload nor the title, then
`pad_mask[i] = 1 ↔ framed_tokens[i] ≠ pad_id` at every position.  (Without
that proviso the iff fails — see the counterexample.) -/
theorem C5_pad_mask_amended (ds : ICTDataset) (tokens : List Nat)
    (title : Option (List Nat)) (framed mask : List Nat)
    (hcls : ds.cls_id ≠ ds.pad_id) (hsep : ds.sep_id ≠ ds.pad_id)
    (htok : ds.pad_id ∉ tokens)
    (htitle : ∀ t, title = some t → ds.pad_id ∉ t)
    (hres : ds.concat_and_pad_tokens tokens title = some (framed, mask)) :
    ∀ i, i < ds.max_seq_length →
      (mask.getD i 0 = 1 ↔ framed.getD i ds.pad_id ≠ ds.pad_id) := by
  cases title with
  | none =>
    simp only [ICTDataset.concat_and_pad_tokens] at hres
    split at hres
    case isTrue hle =>
      rw [Option.some.injEq, Prod.mk.injEq] at hres
      obtain ⟨hf, hm⟩ := hres
      subst hf
      subst hm
      refine padmask_iff _ _ _ ?_
      intro x hx he
      subst he
      have h3 : ds.pad_id = ds.cls_id ∨ ds.pad_id ∈ tokens ∨ ds.pad_id = ds.sep_id := by
        simp only [List.mem_cons, List.mem_append, List.mem_singleton] at hx
        tauto
      rcases h3 with h | h | h
      · exact hcls h.symm
      · exact htok h
      · exact hsep h.symm
    case isFalse => exact absurd hres (by simp)
  | some t =>
    simp only [ICTDataset.concat_and_pad_tokens] at hres
    split at hres
    case isTrue hle =>
      rw [Option.some.injEq, Prod.mk.injEq] at hres
      obtain ⟨hf, hm⟩ := hres
      subst hf
      subst hm
      refine padmask_iff _ _ _ ?_
      intro x hx he
      subst he
      have h3 : ds.pad_id = ds.cls_id ∨ ds.pad_id ∈ t ∨ ds.pad_id = ds.sep_id ∨
          ds.pad_id ∈ tokens := by
        simp only [List.mem_cons, List.mem_append, List.mem_singleton] at hx
        tauto
      rcases h3 with h | h | h | h
      · exact hcls h.symm
      · exact (htitle t rfl) h
      · exact hsep h.symm
      · exact htok h
    case isFalse => exact absurd hres (by simp)

/-- C5 (witness): the iff instantiated at position 1 of a concrete framing
on `dsWit`. -/
theorem C5_witness :
    [1, 1, 1, 0, 0, 0, 0, 0, 0, 0].getD 1 0 = 1 ↔
      [101, 7, 102, 0, 0, 0, 0, 0, 0, 0].getD 1 dsWit.pad_id ≠ dsWit.pad_id :=
  C5_pad_mask_amended dsWit [7] none
    [101, 7, 102, 0, 0, 0, 0, 0, 0, 0] [1, 1, 1, 0, 0, 0, 0, 0, 0, 0]
    (by decide) (by decide) (by decide) (fun t h => nomatch h) (by decide)
    1 (by decide)

/-- C5 (counterexample): on `dsC5` the query sentence is `[0]` and
`pad_id = 0`, so the framed query has a real token equal to `pad_id` at
position 1 whose pad-mask entry is `1` — `pad_mask[1] = 1` but
`framed_tokens[1] = pad_id`, refuting the unconditional iff. -/
theorem C5_pad_token_counterexample :
    (dsC5.getItem gC5 0).map (fun p => (p.1.query_tokens, p.1.query_pad_mask)) =
      some ([101, 0, 102, 0], [1, 1, 1, 0]) ∧
    dsC5.pad_id = 0 ∧
    [1, 1, 1, 0].getD 1 0 = 1 ∧ [101, 0, 102, 0].getD 1 1 = dsC5.pad_id := by
  decide

/-- C6: a block with one sentence or fewer makes both `__getitem__`s fail
their `assert len(block) > 1` (modelled as `none`, terminating the sample
build), and a framed sequence longer than `max_seq_length` makes the
framer fail its assertion likewise. -/
theorem C6_fatal_preconditions (dsR : REALMDataset) (dsI : ICTDataset)
    (g g' : PyRNG) (idx idx' s e d b s' e' d' b' : Nat) (tokens : List Nat)
    (title : Option (List Nat))
    (hR : dsR.samples_mapping idx = (s, e, d, b))
    (hRlen : (dsR.blockOf s e).length ≤ 1)
    (hI : dsI.samples_mapping idx' = (s', e', d', b'))
    (hIlen : (dsI.blockOf s' e').length ≤ 1)
    (hlen : dsI.max_seq_length <
      (match title with
       | none => tokens.length + 2
       | some t => t.length + tokens.length + 3)) :
    dsR.getItem g idx = none ∧ dsI.getItem g' idx' = none ∧
    dsI.concat_and_pad_tokens tokens title = none := by
  refine ⟨?_, ?_, ?_⟩
  · simp only [REALMDataset.getItem, hR]
    rw [if_neg (by omega)]
  · simp only [ICTDataset.getItem, hI]
    rw [if_neg (by omega)]
  · cases title with
    | none =>
      simp only [ICTDataset.concat_and_pad_tokens]
      rw [if_neg (by simp at hlen ⊢; omega)]
    | some t =>
      simp only [ICTDataset.concat_and_pad_tokens]
      rw [if_neg (by simp at hlen ⊢; omega)]

/-- C6 (witness): the assertions fire on concrete single-sentence mappings
and on an over-long framing. -/
theorem C6_witness :
    dsWitR.getItem gW 0 = none ∧ dsWit6.getItem gW 0 = none ∧
    dsWit6.concat_and_pad_tokens (List.replicate 9 5) none = none :=
  C6_fatal_preconditions dsWitR dsWit6 gW gW 0 0 0 1 0 0 0 1 0 0
    (List.replicate 9 5) none rfl (by decide) rfl (by decide) (by decide)

/-- C7 (amended): with titles enabled (`use_titles = True`) `get_block`
applies exactly the truncation operator and title framing of the
`__getitem__` block path (both factor through `blockTrunc` and
`concat_and_pad_tokens` with the document title): `get_block` equals
`concat_and_pad_tokens` of the `blockTrunc`-truncated flattened block, and
every sample's block half is the same composition applied to the kept
sentences (the full block or the block with the picked sentence removed).
With `use_titles = False` the policies differ — see the counterexample. -/
theorem C7_title_policy_amended (ds : ICTDataset) (hds : ds.use_titles = true)
    (start_idx end_idx doc_idx : Nat) (g : PyRNG) (idx s e d b : Nat)
    (bm : List Nat × List Nat)
    (hmap : ds.samples_mapping idx = (s, e, d, b))
    (hget : (ds.getItem g idx).map
        (fun p => (p.1.block_tokens, p.1.block_pad_mask)) = some bm) :
    ds.get_block start_idx end_idx doc_idx =
      ds.concat_and_pad_tokens
        (ds.blockTrunc doc_idx (ds.blockOf start_idx end_idx))
        (some (ds.title_dataset doc_idx)) ∧
    ∃ kept : List (List Nat),
      (kept = ds.blockOf s e ∨
       kept = (ds.blockOf s e).eraseIdx
         ((g.randint 0 ((ds.blockOf s e).length - 1)).1)) ∧
      ds.concat_and_pad_tokens (ds.blockTrunc d kept)
          (some (ds.title_dataset d)) = some bm := by
  constructor
  · simp only [ICTDataset.get_block, ICTDataset.blockTrunc,
      ICTDataset.titlePadOffset, hds, if_true]
    norm_cast
  · rw [Option.map_eq_some'] at hget
    obtain ⟨⟨sample, g2⟩, hsg, hbm⟩ := hget
    subst hbm
    simp only [ICTDataset.getItem, hmap, hds, if_true] at hsg
    split at hsg
    case isFalse => exact absurd hsg (by simp)
    case isTrue hlen =>
      by_cases hr : ((g.randint 0 ((ds.blockOf s e).length - 1)).2.random).1 <
          ds.query_in_block_prob
      · rw [if_pos hr] at hsg
        refine ⟨ds.blockOf s e, Or.inl rfl, ?_⟩
        split at hsg
        · rename_i qt qm bt bm' heq1 heq2
          rw [Option.some.injEq, Prod.mk.injEq] at hsg
          obtain ⟨h1, h2⟩ := hsg
          rw [heq2, ← h1]
        · exact absurd hsg (by simp)
      · rw [if_neg hr] at hsg
        refine ⟨(ds.blockOf s e).eraseIdx
          ((g.randint 0 ((ds.blockOf s e).length - 1)).1), Or.inr rfl, ?_⟩
        split at hsg
        · rename_i qt qm bt bm' heq1 heq2
          rw [Option.some.injEq, Prod.mk.injEq] at hsg
          obtain ⟨h1, h2⟩ := hsg
          rw [heq2, ← h1]
        · exact absurd hsg (by simp)

/-- C7 (witness): the policy identity instantiated on `dsWit` (titles on). -/
theorem C7_witness :
    dsWit.get_block 0 2 0 =
      dsWit.concat_and_pad_tokens
        (dsWit.blockTrunc 0 (dsWit.blockOf 0 2))
        (some (dsWit.title_dataset 0)) :=
  (C7_title_policy_amended dsWit rfl 0 2 0 gW 0 0 2 0 7
    ([101, 5, 102, 11, 21, 102, 0, 0, 0, 0], [1, 1, 1, 1, 1, 1, 0, 0, 0, 0])
    rfl (by decide)).1

/-- C7 (counterexample): on a `use_titles = False` instance, the
`__getitem__` block path frames the kept payload `[2]` without a title and
with truncation budget `max_seq_length - 2`, while `get_block` on the same
payload frames it with the title and budget `max_seq_length - (3 + len)`:
the outputs differ, so the policies are not identical on that instance. -/
theorem C7_use_titles_false_counterexample :
    (dsC7.getItem gC7 0).map (fun p => p.1.block_tokens) =
      some [101, 2, 102, 0, 0, 0] ∧
    (dsC7.get_block 1 2 0).map Prod.fst = some [101, 9, 102, 2, 102, 0] ∧
    dsC7.use_titles = false := by
  decide

/-- C8: strict-mode decoding output is well escaped — scanning it, every
backslash is immediately followed by a reserved character and every
character not consumed by such a pair is non-reserved, hence every reserved
character is preceded by exactly one backslash, none is unescaped, and no
double backslash occurs — and the escaping stage (strip backslashes, then
insert-and-skip) is idempotent on strings. -/
theorem C8_strict_escaping (ds : ICTDataset) (token_ids : List Nat)
    (s : String) :
    wellEscaped (ds.decode_tokens token_ids true).data = true ∧
    escapeStrict (escapeStrict s) = escapeStrict s := by
  refine ⟨?_, escapeStrict_idem s⟩
  rw [ICTDataset.decode_tokens]
  simp only [if_true]
  exact wellEscaped_escapeStrict_pad _

/-- C9: strict-mode decoding always returns a string of length at least 3:
if the escaped text is shorter than 3 characters the fixed placeholder is
appended. -/
theorem C9_min_length (ds : ICTDataset) (token_ids : List Nat) :
    3 ≤ (ds.decode_tokens token_ids true).length := by
  rw [ICTDataset.decode_tokens]
  simp only [if_true]
  split
  · rw [string_length_append]
    have h9 : ("text here" : String).length = 9 := rfl
    omega
  · omega

/-- C10: the per-sample RNG of `REALMDataset.__getitem__` is seeded with
the arithmetic sum `seed + idx`, so for every index `idx ≥ 1` the sample
at `idx` under seed `s` gets exactly the RNG of the sample at `idx - 1`
under seed `s + 1`: equal-sum `(seed, index)` pairs share their random
stream. -/
theorem C10_seed_index_aliasing (ds : REALMDataset) (idx : Nat)
    (h : 1 ≤ idx) :
    ds.sampleRng idx =
      REALMDataset.sampleRng { ds with seed := ds.seed + 1 } (idx - 1) := by
  simp only [REALMDataset.sampleRng]
  congr 1
  omega

/-- C10 (witness): the aliasing at `idx = 1` on a concrete instance. -/
theorem C10_witness :
    dsWitR.sampleRng 1 =
      REALMDataset.sampleRng { dsWitR with seed := dsWitR.seed + 1 } 0 :=
  C10_seed_index_aliasing dsWitR 1 (by decide)
